import Mathlib

/-!
Verification of the real-time audio streaming engine
(`app/services/audio_streaming_service.py` and
`app/api/v1/endpoints/audio_streaming.py`).

The Python classes are shallowly embedded: byte strings become `List Nat`,
Python ints become `Int`, dictionaries keyed by session id become
association lists with no duplicate keys, and `asyncio.Queue` instances
become FIFO `List`s.  Fallible operations return `Option`/`Except`.
-/

namespace LLB

/-- Segment of a transcription result, as produced by the Whisper collaborator
(`segments` entries carry timing, text and a confidence value). -/
structure Segment where
  start_seconds : Rat
  end_seconds : Rat
  text : String
  confidence : Rat
deriving DecidableEq

/-- Result dictionary built by `_transcribe_chunk_file`. -/
structure TranscriptionResult where
  text : String
  language : String
  confidence : Rat
  duration : Rat
  segments : List Segment
deriving DecidableEq

/-- The dictionary returned by the `except` branch of `_transcribe_chunk_file`:
empty text, unknown language, zero confidence, no segments. -/
def emptyTranscription : TranscriptionResult :=
  { text := "", language := "unknown", confidence := 0, duration := 0, segments := [] }

/-- `AudioChunk.__init__`: audio payload plus ordering metadata.  `processed`
starts `False` and `result` starts `None`. -/
structure AudioChunk where
  data : List Nat
  chunk_id : Nat
  timestamp : Int
  is_final : Bool
  processed : Bool := false
  result : Option TranscriptionResult := none
deriving DecidableEq

/-- Default `AudioBuffer` capacity: `10 * 1024 * 1024` bytes (10MB). -/
def defaultMaxSize : Int := 10 * 1024 * 1024

/-- `AudioBuffer.__init__`: chunk list, running byte total, capacity. -/
structure AudioBuffer where
  max_size : Int
  chunks : List AudioChunk
  total_size : Int
deriving DecidableEq

/-- A fresh `AudioBuffer(max_size)`: no chunks, zero total. -/
def AudioBuffer.init (max_size : Int) : AudioBuffer :=
  { max_size := max_size, chunks := [], total_size := 0 }

/-- Core of `AudioBuffer._cleanup_old_chunks`: one left-to-right pass that
collects every chunk with `chunk.processed` true while the running
`removed_size` accumulator is still below `needed_space`, then removes exactly
those chunks.  Returns the surviving chunk list and the total bytes removed
(the Python code does this in two passes over distinct chunk objects; fusing
the collect pass with the remove pass preserves which positions are dropped). -/
def collectRemovable (needed : Int) : List AudioChunk → Int → List AudioChunk × Int
  | [], removed => ([], removed)
  | c :: rest, removed =>
    if c.processed && decide (removed < needed) then
      collectRemovable needed rest (removed + (c.data.length : Int))
    else
      (c :: (collectRemovable needed rest removed).1,
       (collectRemovable needed rest removed).2)

/-- `AudioBuffer._cleanup_old_chunks(needed_space)`: drop collected processed
chunks and decrement `total_size` by the bytes removed. -/
def AudioBuffer.cleanup_old_chunks (buf : AudioBuffer) (needed_space : Int) : AudioBuffer :=
  let p := collectRemovable needed_space buf.chunks 0
  { buf with chunks := p.1, total_size := buf.total_size - p.2 }

/-- `AudioBuffer.add_chunk(chunk)`: if the insertion would exceed `max_size`,
run `_cleanup_old_chunks(chunk_size)` first; then unconditionally append the
chunk, add its size to `total_size`, and return `True`. -/
def AudioBuffer.add_chunk (buf : AudioBuffer) (chunk : AudioChunk) : AudioBuffer × Bool :=
  let chunk_size : Int := chunk.data.length
  let buf1 :=
    if buf.total_size + chunk_size > buf.max_size then
      buf.cleanup_old_chunks chunk_size
    else buf
  ({ buf1 with chunks := buf1.chunks ++ [chunk], total_size := buf1.total_size + chunk_size },
   true)

/-- Helper for `AudioBuffer.mark_processed`: set `processed` on the first chunk
whose `chunk_id` matches (the Python loop `break`s after the first match). -/
def markProcessedList (cid : Nat) : List AudioChunk → List AudioChunk
  | [] => []
  | c :: rest =>
    if c.chunk_id = cid then { c with processed := true } :: rest
    else c :: markProcessedList cid rest

/-- `AudioBuffer.mark_processed(chunk_id)`. -/
def AudioBuffer.mark_processed (buf : AudioBuffer) (cid : Nat) : AudioBuffer :=
  { buf with chunks := markProcessedList cid buf.chunks }

/-- `AudioBuffer.get_unprocessed_chunks()`. -/
def AudioBuffer.get_unprocessed_chunks (buf : AudioBuffer) : List AudioChunk :=
  buf.chunks.filter (fun c => !c.processed)

/-- A wholly-unprocessed chunk of `n` zero bytes with id `id`, as created for
live client audio before any worker has touched it. -/
def bigChunk (n id : Nat) : AudioChunk :=
  { data := List.replicate n 0, chunk_id := id, timestamp := 0, is_final := false }

/-- A default-capacity buffer after `add_chunk` of one unprocessed 8MB chunk:
the state reached by a client that has streamed 8MB not yet transcribed. -/
def fullBuf : AudioBuffer :=
  ((AudioBuffer.init defaultMaxSize).add_chunk (bigChunk 8388608 1)).1

/-- Small concrete unprocessed chunk for witnesses. -/
def uChunkW : AudioChunk :=
  { data := [0], chunk_id := 7, timestamp := 0, is_final := false }

/-- `_transcribe_chunk_file`: invokes the Whisper collaborator; its `except`
branch returns the empty result dictionary, never `None`. -/
def transcribe_chunk_file (engine : Except String TranscriptionResult) : TranscriptionResult :=
  match engine with
  | .ok r => r
  | .error _ => emptyTranscription

/-- `_process_audio_chunk`: returns `None` when `whisper_model` is not loaded
(`model_loaded = false`) or when the surrounding temp-file/executor code
raises (`io_ok = false`, caught by the outer `except` which returns `None`);
otherwise the `_transcribe_chunk_file` result. -/
def process_audio_chunk (model_loaded : Bool) (io_ok : Bool)
    (engine : Except String TranscriptionResult) : Option TranscriptionResult :=
  if model_loaded = false then none
  else if io_ok = false then none
  else some (transcribe_chunk_file engine)

/-- Chunk-state part of the `_transcription_worker` body: after popping a
chunk it assigns `chunk.result = result` (the `_process_audio_chunk` value)
and then marks the chunk processed. -/
def transcription_worker_handle (model_loaded io_ok : Bool)
    (engine : Except String TranscriptionResult) (chunk : AudioChunk) : AudioChunk :=
  { chunk with result := process_audio_chunk model_loaded io_ok engine, processed := true }

/-- A concrete fresh chunk used in the C4 counterexample. -/
def c4Chunk : AudioChunk :=
  { data := [1, 2], chunk_id := 3, timestamp := 0, is_final := false }

/-- State of one session's transcription pipeline under the two-worker pool
started by `_start_workers(2)`: the session's FIFO `processing_queue`, the
chunk (identified by its submission index) currently held by each
`_transcription_worker` task, the pop order, and the order in which
`_send_transcription_result` frames have gone out. -/
structure WorkerPoolState where
  queue : List Nat
  w1 : Option Nat
  w2 : Option Nat
  popped : List Nat
  sent : List Nat
deriving DecidableEq

/-- Interleaving steps of the two `_transcription_worker` tasks on one
session: a `pop` is `await asyncio.wait_for(session.processing_queue.get(),
timeout=0.1)` by an idle worker; a `fin` is the completion of
`_process_audio_chunk` followed by `_send_transcription_result`, which can
happen in either order because the Whisper calls run concurrently in
executor threads. -/
inductive PoolStep : WorkerPoolState → WorkerPoolState → Prop
  | pop1 (c : Nat) (rest : List Nat) (w2 : Option Nat) (popped sent : List Nat) :
      PoolStep ⟨c :: rest, none, w2, popped, sent⟩ ⟨rest, some c, w2, popped ++ [c], sent⟩
  | pop2 (c : Nat) (rest : List Nat) (w1 : Option Nat) (popped sent : List Nat) :
      PoolStep ⟨c :: rest, w1, none, popped, sent⟩ ⟨rest, w1, some c, popped ++ [c], sent⟩
  | fin1 (c : Nat) (queue : List Nat) (w2 : Option Nat) (popped sent : List Nat) :
      PoolStep ⟨queue, some c, w2, popped, sent⟩ ⟨queue, none, w2, popped, sent ++ [c]⟩
  | fin2 (c : Nat) (queue : List Nat) (w1 : Option Nat) (popped sent : List Nat) :
      PoolStep ⟨queue, w1, some c, popped, sent⟩ ⟨queue, w1, none, popped, sent ++ [c]⟩

/-- Character class stripped by Python `str.strip()` (ASCII whitespace). -/
def pyIsSpace (c : Char) : Bool :=
  c = ' ' || c = '\t' || c = '\n' || c = '\x0d' || c = '\x0b' || c = '\x0c'

/-- Python `text.strip()`: drop leading and trailing whitespace. -/
def pyStrip (s : String) : String :=
  String.mk (((s.data.dropWhile pyIsSpace).reverse.dropWhile pyIsSpace).reverse)

/-- Python `a or b` on an optional string: `None` and the empty string are
falsy, so both fall back to `b`. -/
def pyOrStr (a : Option String) (b : String) : String :=
  match a with
  | none => b
  | some x => if x.isEmpty then b else x

/-- Replace every occurrence of character `c` by the string `rep`,
left to right — Python `str.replace` for a single-character pattern. -/
def replaceChar (c : Char) (rep : List Char) : List Char → List Char
  | [] => []
  | a :: rest =>
    if a = c then rep ++ replaceChar c rep rest
    else a :: replaceChar c rep rest

/-- `sanitize_html` from `app/core/sanitizer.py`: `html.escape(text, quote=True)`,
which replaces in order `&`, `<`, `>`, `"`, then the single quote. -/
def sanitize_html (s : String) : String :=
  String.mk
    (replaceChar '\x27' ['&', '#', 'x', '2', '7', ';']
      (replaceChar '"' ['&', 'q', 'u', 'o', 't', ';']
        (replaceChar '>' ['&', 'g', 't', ';']
          (replaceChar '<' ['&', 'l', 't', ';']
            (replaceChar '&' ['&', 'a', 'm', 'p', ';'] s.data)))))

/-- A dictionary appended to `ConversationSession.conversation_history`:
either a `transcription` entry or a `tts_response` entry. -/
inductive HistoryEntry where
  | transcription (chunk_id : Nat) (text : String) (confidence : Rat)
      (language : String) (timestamp : Int)
  | tts_response (text : String) (language : String) (audio_size : Nat) (timestamp : Int)
deriving DecidableEq

/-- A TTS request dictionary put on `response_queue` by
`generate_speech_response`. -/
structure SpeechRequest where
  text : String
  language : String
  timestamp : Int
deriving DecidableEq

/-- `ConversationSession.__init__` state: identity, language hint, clocks,
buffer, bounded history, activity flag, optional websocket handle (an opaque
token), and the two per-session FIFO queues. -/
structure ConversationSession where
  session_id : String
  language : String
  created_at : Int
  last_activity : Int
  audio_buffer : AudioBuffer
  conversation_history : List HistoryEntry
  is_active : Bool
  websocket : Option Nat
  processing_queue : List AudioChunk
  response_queue : List SpeechRequest
deriving DecidableEq

/-- `ConversationSession.is_expired(timeout)` at a given current time:
`time.time() - last_activity > timeout`. -/
def ConversationSession.is_expired (s : ConversationSession) (now timeout : Int) : Bool :=
  decide (now - s.last_activity > timeout)

/-- `ConversationSession.add_conversation_entry`: append, then keep only the
last 50 entries. -/
def ConversationSession.add_conversation_entry (s : ConversationSession)
    (e : HistoryEntry) : ConversationSession :=
  let h := s.conversation_history ++ [e]
  { s with conversation_history := if h.length > 50 then h.drop (h.length - 50) else h }

/-- `ConversationSession.add_audio_chunk(data, is_final)`: build the
`AudioChunk` (uuid modelled as a caller-supplied token), add it to the
buffer, put it on `processing_queue`, and update the activity clock. -/
def ConversationSession.add_audio_chunk (s : ConversationSession) (now : Int)
    (chunk_uuid : Nat) (data : List Nat) (is_final : Bool) : ConversationSession :=
  let chunk : AudioChunk :=
    { data := data, chunk_id := chunk_uuid, timestamp := now, is_final := is_final }
  { s with audio_buffer := (s.audio_buffer.add_chunk chunk).1,
           processing_queue := s.processing_queue ++ [chunk],
           last_activity := now }

/-- `AudioStreamingService.generate_speech_response` on a looked-up session:
build the request with `language or session.language`, put it on
`response_queue`, update activity. -/
def generate_speech_response (s : ConversationSession) (now : Int) (text : String)
    (language : Option String) : ConversationSession :=
  let req : SpeechRequest :=
    { text := text, language := pyOrStr language s.language, timestamp := now }
  { s with response_queue := s.response_queue ++ [req], last_activity := now }

/-- The stats dictionary built by `AudioStreamingService.get_session_stats`. -/
structure SessionStats where
  session_id : String
  created_at : Int
  last_activity : Int
  is_active : Bool
  language : String
  conversation_entries : Nat
  buffer_chunks : Nat
  buffer_size : Int
  pending_transcriptions : Nat
  pending_responses : Nat
deriving DecidableEq

/-- The no-duplicate-keys property every Python dict satisfies; the registry
`AudioStreamingService.active_sessions` is embedded as an association list
from session id to session with this property. -/
abbrev keysNodup (reg : List (String × ConversationSession)) : Prop :=
  (reg.map Prod.fst).Nodup

/-- `AudioStreamingService.get_session_stats(session_id)`. -/
def get_session_stats (reg : List (String × ConversationSession)) (sid : String) :
    Option SessionStats :=
  match reg.find? (fun p => p.1 == sid) with
  | none => none
  | some p =>
    some { session_id := sid, created_at := p.2.created_at,
           last_activity := p.2.last_activity, is_active := p.2.is_active,
           language := p.2.language,
           conversation_entries := p.2.conversation_history.length,
           buffer_chunks := p.2.audio_buffer.chunks.length,
           buffer_size := p.2.audio_buffer.total_size,
           pending_transcriptions := p.2.processing_queue.length,
           pending_responses := p.2.response_queue.length }

/-- Session-derived part of `AudioStreamingService.get_all_sessions_stats`:
the total session count and the ids of sessions with `is_active` true. -/
structure AllSessionsStats where
  total_sessions : Nat
  active_sessions : List String
deriving DecidableEq

/-- `AudioStreamingService.get_all_sessions_stats` (service-status constants
omitted). -/
def get_all_sessions_stats (reg : List (String × ConversationSession)) : AllSessionsStats :=
  { total_sessions := reg.length,
    active_sessions := (reg.filter (fun p => p.2.is_active)).map Prod.fst }

/-- Deletion of a key from the registry dict (`del self.active_sessions[sid]`):
removes the binding of the unique matching key. -/
def registry_del (reg : List (String × ConversationSession)) (sid : String) :
    List (String × ConversationSession) :=
  match reg with
  | [] => []
  | p :: rest => if p.1 = sid then rest else p :: registry_del rest sid

/-- `AudioStreamingService.close_session(session_id)`: when the id is present,
mark the session inactive, close its websocket and delete it from the
registry; otherwise do nothing.  The returned flag records whether the
cleanup side effects ran. -/
def close_session (reg : List (String × ConversationSession)) (sid : String) :
    List (String × ConversationSession) × Bool :=
  if reg.any (fun p => p.1 == sid) then (registry_del reg sid, true)
  else (reg, false)

/-- One pass of `_session_cleanup_loop`: collect the ids of the sessions that
`is_expired()` (timeout 3600), then `close_session` each collected id. -/
def session_cleanup_pass (now : Int) (reg : List (String × ConversationSession)) :
    List (String × ConversationSession) :=
  ((reg.filter (fun p => p.2.is_expired now 3600)).map Prod.fst).foldl
    (fun r sid => (close_session r sid).1) reg

/-- Outbound protocol frames of the websocket endpoint. -/
inductive Frame where
  | connection_established (session_id : String)
  | chunk_received (chunk_id : Nat) (chunk_index : Int) (size : Nat) (is_final : Bool)
  | transcription (result : TranscriptionResult)
  | tts_queued (text : String) (language : Option String)
  | audio_response (audio_hex_size : Nat) (text : String) (language : String)
  | pong
  | stats_response (stats : Option SessionStats)
  | reset_complete (message : String)
  | error (message : String)
deriving DecidableEq

/-- Whether a frame is an `error` frame. -/
def Frame.isErrorFrame : Frame → Bool
  | .error _ => true
  | _ => false

/-- Hex digit value, as accepted by `bytes.fromhex`. -/
def hexDigit (c : Char) : Option Nat :=
  if '0' ≤ c ∧ c ≤ '9' then some (c.toNat - '0'.toNat)
  else if 'a' ≤ c ∧ c ≤ 'f' then some (c.toNat - 'a'.toNat + 10)
  else if 'A' ≤ c ∧ c ≤ 'F' then some (c.toNat - 'A'.toNat + 10)
  else none

/-- `bytes.fromhex`: decode hex digit pairs, skipping whitespace between
pairs; any other shape raises `ValueError` (modelled as `none`). -/
def hexDecodeAux : List Char → Option (List Nat)
  | [] => some []
  | c :: rest =>
    if pyIsSpace c then hexDecodeAux rest
    else
      match rest with
      | [] => none
      | c2 :: rest2 =>
        match hexDigit c, hexDigit c2 with
        | some hi, some lo => (hexDecodeAux rest2).map (fun bs => (16 * hi + lo) :: bs)
        | _, _ => none

/-- `bytes.fromhex` on a string. -/
def hexDecode (s : String) : Option (List Nat) :=
  hexDecodeAux s.data

/-- The `text[:50] + "..."` preview echoed in `tts_queued` frames. -/
def preview_text (text : String) : String :=
  if text.length > 50 then text.take 50 ++ "..." else text

/-- `handle_audio_chunk` from the websocket endpoint, acting on the session
the id resolves to: an empty `audio_data` raises `ValueError` (caught and
answered with an `error` frame, leaving the session untouched); undecodable
hex likewise; otherwise the chunk is added via
`process_audio_stream`/`add_audio_chunk` and acknowledged with
`chunk_received`. -/
def handle_audio_chunk (s : ConversationSession) (now : Int) (chunk_uuid : Nat)
    (audio_hex : String) (is_final : Bool) (chunk_index : Int) :
    ConversationSession × Frame :=
  if audio_hex.isEmpty then
    (s, Frame.error "Audio chunk processing error: No audio data provided")
  else
    match hexDecode audio_hex with
    | none => (s, Frame.error "Audio chunk processing error: non-hexadecimal data")
    | some audio_bytes =>
      (s.add_audio_chunk now chunk_uuid audio_bytes is_final,
       Frame.chunk_received chunk_uuid chunk_index audio_bytes.length is_final)

/-- `handle_text_request` from the websocket endpoint, acting on the resolved
session: text that strips to empty raises `ValueError` (caught and answered
with an `error` frame, session untouched); otherwise the speech request is
queued and acknowledged with `tts_queued`. -/
def handle_text_request (s : ConversationSession) (now : Int) (text : String)
    (language : Option String) : ConversationSession × Frame :=
  if (pyStrip text).isEmpty then
    (s, Frame.error "Text request processing error: No text provided")
  else
    (generate_speech_response s now text language,
     Frame.tts_queued (preview_text text) language)

/-- `handle_control_message` from the websocket endpoint (the `stats` branch
takes the `get_session_stats` lookup result as an argument).  The unknown
branch interpolates the raw `command` into the error message. -/
def handle_control_message (command : String) (stats : Option SessionStats) : Frame :=
  if command = "ping" then Frame.pong
  else if command = "stats" then Frame.stats_response stats
  else if command = "reset" then Frame.reset_complete "Session buffers reset"
  else Frame.error ("Unknown control command: " ++ command)

/-- The unknown-message-type branch of `websocket_audio_stream`, which does
pass the echoed value through `sanitize_html` before interpolating it. -/
def unknown_message_type_error (message_type : String) : Frame :=
  Frame.error ("Unknown message type: " ++ sanitize_html message_type)

/-- `_generate_speech_blocking`: returns the synthesized bytes, or `b""` when
the TTS engine raises. -/
def generate_speech_blocking (engine : Except String (List Nat)) : List Nat :=
  match engine with
  | .ok b => b
  | .error _ => []

/-- `_generate_speech_chunk`: `None` when the TTS engine is not set up
(`tts_ok = false`) or the executor call raises (`exec_ok = false`); otherwise
the `_generate_speech_blocking` bytes. -/
def generate_speech_chunk (tts_ok exec_ok : Bool)
    (engine : Except String (List Nat)) : Option (List Nat) :=
  if tts_ok = false then none
  else if exec_ok = false then none
  else some (generate_speech_blocking engine)

/-- Python truthiness of an optional byte string: `None` and `b""` are falsy. -/
def pyTruthyBytes : Option (List Nat) → Bool
  | some b => !b.isEmpty
  | none => false

/-- The `audio_size` recorded by the `_tts_worker` history entry:
`len(audio_data) if audio_data else 0`. -/
def tts_recorded_size (tts_ok exec_ok : Bool) (engine : Except String (List Nat)) : Nat :=
  if pyTruthyBytes (generate_speech_chunk tts_ok exec_ok engine) then
    ((generate_speech_chunk tts_ok exec_ok engine).getD []).length
  else 0

/-- Body of `_tts_worker` for one popped request: synthesize, send an
`audio_response` frame only when a websocket is attached and the audio is
truthy, then append the `tts_response` history entry.  The flag reports
whether a frame was sent. -/
def tts_worker_handle (s : ConversationSession) (now : Int) (req : SpeechRequest)
    (tts_ok exec_ok : Bool) (engine : Except String (List Nat)) :
    ConversationSession × Bool :=
  let audio_data := generate_speech_chunk tts_ok exec_ok engine
  (s.add_conversation_entry
      (.tts_response req.text req.language (tts_recorded_size tts_ok exec_ok engine) now),
   s.websocket.isSome && pyTruthyBytes audio_data)

/-- A concrete session literal used in witnesses. -/
def sessW (id : String) (last : Int) : ConversationSession :=
  { session_id := id, language := "auto", created_at := 0, last_activity := last,
    audio_buffer := AudioBuffer.init defaultMaxSize, conversation_history := [],
    is_active := true, websocket := none, processing_queue := [], response_queue := [] }

/-- A concrete two-session registry: `s1` last active at 0, `s2` at 4000. -/
def regW : List (String × ConversationSession) :=
  [("s1", sessW "s1" 0), ("s2", sessW "s2" 4000)]

/-- Claim C1 (code bug): `total_size <= max_size` is supposed to hold after
every `add_chunk`, but adding a 5MB chunk to a default 10MB buffer already
holding an unprocessed 8MB chunk leaves `total_size = 13631488 > 10485760`:
`_cleanup_old_chunks` can only evict processed chunks and `add_chunk` appends
unconditionally, so the cap is breached. -/
theorem c1_buffer_cap_breached :
    ((fullBuf.add_chunk (bigChunk 5242880 2)).1.total_size = 13631488 ∧
      (fullBuf.add_chunk (bigChunk 5242880 2)).1.max_size = 10485760) ∧
    (fullBuf.add_chunk (bigChunk 5242880 2)).1.total_size >
      (fullBuf.add_chunk (bigChunk 5242880 2)).1.max_size := by
  have h : fullBuf =
      ({ max_size := 10485760, chunks := [bigChunk 8388608 1], total_size := 8388608 } :
        AudioBuffer) := by
    simp only [fullBuf, AudioBuffer.init, AudioBuffer.add_chunk, defaultMaxSize, bigChunk,
      List.length_replicate]
    norm_num
  rw [h]
  simp only [AudioBuffer.add_chunk, AudioBuffer.cleanup_old_chunks, collectRemovable,
    bigChunk, List.length_replicate]
  norm_num

/-- Claim C2 (code bug): when eviction cannot make room, the chunk should be
rejected (`add_chunk`'s own docstring says it returns `False` when the buffer
is full); instead the code stores the oversized chunk and returns `True`. -/
theorem c2_overfull_chunk_not_rejected :
    (fullBuf.add_chunk (bigChunk 5242880 2)).2 = true ∧
    bigChunk 5242880 2 ∈ (fullBuf.add_chunk (bigChunk 5242880 2)).1.chunks := by
  constructor
  · rfl
  · simp [AudioBuffer.add_chunk]

/-- Unprocessed chunks survive the collection pass of `_cleanup_old_chunks`. -/
theorem mem_collectRemovable_of_unprocessed (needed : Int) (l : List AudioChunk)
    (acc : Int) (x : AudioChunk) (hx : x ∈ l) (hp : x.processed = false) :
    x ∈ (collectRemovable needed l acc).1 := by
  induction l generalizing acc with
  | nil => cases hx
  | cons c rest ih =>
    rcases List.mem_cons.mp hx with hxc | hxr
    · subst hxc
      simp [collectRemovable, hp]
    · simp only [collectRemovable]
      split
      · exact ih _ hxr
      · exact List.mem_cons_of_mem _ (ih _ hxr)

/-- Claim C3 (confirmed): `add_chunk` never evicts an unprocessed chunk —
every chunk that was unprocessed before the call is still in the buffer
afterwards. -/
theorem c3_unprocessed_never_evicted (buf : AudioBuffer) (c x : AudioChunk)
    (hx : x ∈ buf.chunks) (hp : x.processed = false) :
    x ∈ (buf.add_chunk c).1.chunks := by
  simp only [AudioBuffer.add_chunk]
  apply List.mem_append_left
  split
  · exact mem_collectRemovable_of_unprocessed _ _ _ _ hx hp
  · exact hx

/-- Witness for C3: a concrete unprocessed one-byte chunk already in a
default buffer is still present after a further `add_chunk`. -/
theorem c3_witness :
    uChunkW ∈ ((((AudioBuffer.init defaultMaxSize).add_chunk uChunkW).1.add_chunk
      (bigChunk 1 8)).1).chunks :=
  c3_unprocessed_never_evicted _ _ _ (by decide) (by decide)

/-- Claim C4 counterexample: when the Whisper model is not loaded,
`_process_audio_chunk` returns `None`, yet the worker still marks the chunk
processed — so `processed = true` with `result = none`, refuting the claimed
invariant `processed == true → result != nil`. -/
theorem c4_counterexample :
    (transcription_worker_handle false true (.ok emptyTranscription) c4Chunk).processed = true ∧
    (transcription_worker_handle false true (.ok emptyTranscription) c4Chunk).result = none := by
  constructor <;> rfl

/-- Claim C4 as amended: the worker always marks the handled chunk processed;
`result` is non-nil exactly on the runs where the model is loaded and the
temp-file/executor path succeeds (an engine failure then yields the non-nil
empty result), while a missing model or an I/O failure leaves
`result = none` on a processed chunk. -/
theorem c4_amended (model_loaded io_ok : Bool)
    (engine : Except String TranscriptionResult) (chunk : AudioChunk) :
    (transcription_worker_handle model_loaded io_ok engine chunk).processed = true ∧
    (model_loaded = true → io_ok = true →
      (transcription_worker_handle model_loaded io_ok engine chunk).result =
        some (transcribe_chunk_file engine)) ∧
    ((model_loaded = false ∨ io_ok = false) →
      (transcription_worker_handle model_loaded io_ok engine chunk).result = none) := by
  refine ⟨rfl, ?_, ?_⟩
  · intro hm hio
    simp [transcription_worker_handle, process_audio_chunk, hm, hio]
  · intro h
    rcases h with hm | hio
    · simp [transcription_worker_handle, process_audio_chunk, hm]
    · rcases Bool.eq_false_or_eq_true model_loaded with hm | hm <;>
        simp [transcription_worker_handle, process_audio_chunk, hm, hio]

/-- Witness for C4 as amended: on a run where the model is loaded, I/O
succeeds and the engine itself fails, the handled chunk is processed and
carries the non-nil empty result. -/
theorem c4_amended_witness :
    (transcription_worker_handle true true (.error "boom") c4Chunk).processed = true ∧
    (transcription_worker_handle true true (.error "boom") c4Chunk).result =
      some emptyTranscription := by
  have h := c4_amended true true (.error "boom") c4Chunk
  exact ⟨h.1, h.2.1 rfl rfl⟩

/-- Claim C5 counterexample: starting from a session whose queue holds chunks
1 then 2, the two-worker pool can reach a drained state whose transcription
frames went out as `[2, 1]` — worker 1 pops chunk 1, worker 2 pops chunk 2
and finishes first.  Both chunks were fully processed, yet the emission
order reverses the FIFO receipt order. -/
theorem c5_counterexample :
    Relation.ReflTransGen PoolStep
      ⟨[1, 2], none, none, [], []⟩ ⟨[], none, none, [1, 2], [2, 1]⟩ ∧
    ([2, 1] : List Nat) ≠ [1, 2] := by
  constructor
  · exact Relation.ReflTransGen.tail
      (Relation.ReflTransGen.tail
        (Relation.ReflTransGen.tail
          (Relation.ReflTransGen.single (PoolStep.pop1 1 [2] none [] []))
          (PoolStep.pop2 2 [] (some 1) [1] []))
        (PoolStep.fin2 2 [] (some 1) [1, 2] []))
      (PoolStep.fin1 1 [] none [1, 2] [2])
  · decide

/-- Claim C5 as amended: chunks are popped from the session's processing
queue in FIFO submission order — in every reachable state of the two-worker
pool, the pop order followed by the remaining queue is exactly the original
submission sequence — but the emission order of transcription frames is not
guaranteed to match it. -/
theorem c5_amended_fifo_pop (cs : List Nat) (s : WorkerPoolState)
    (h : Relation.ReflTransGen PoolStep ⟨cs, none, none, [], []⟩ s) :
    s.popped ++ s.queue = cs := by
  induction h with
  | refl => simp
  | tail _ hstep ih =>
    cases hstep <;> simp_all

/-- Witness for C5 as amended: after worker 1 pops chunk 1 from the
two-chunk queue, the pop order plus the remaining queue is still `[1, 2]`. -/
theorem c5_amended_witness :
    (WorkerPoolState.mk [2] (some 1) none [1] []).popped ++
      (WorkerPoolState.mk [2] (some 1) none [1] []).queue = [1, 2] :=
  c5_amended_fifo_pop [1, 2] ⟨[2], some 1, none, [1], []⟩
    (Relation.ReflTransGen.single (PoolStep.pop1 1 [2] none [] []))

/-- Claim C6 (code bug): the unknown-control-command branch of
`handle_control_message` interpolates the raw command into the outbound
`error` frame, while `sanitize_html` on the same input produces a different,
escaped string — so the echoed value is the raw text, not its sanitized
form.  The unknown-message-type branch of the receive loop, by contrast,
does escape what it echoes. -/
theorem c6_unknown_command_echoed_raw :
    handle_control_message "<script>" none =
      Frame.error "Unknown control command: <script>" ∧
    sanitize_html "<script>" = "&lt;script&gt;" ∧
    Frame.error "Unknown control command: <script>" ≠
      Frame.error ("Unknown control command: " ++ sanitize_html "<script>") ∧
    unknown_message_type_error "<script>" =
      Frame.error "Unknown message type: &lt;script&gt;" := by
  refine ⟨rfl, by decide, by decide, by decide⟩

/-- In a registry with no duplicate keys, a key determines its session. -/
theorem key_unique (reg : List (String × ConversationSession)) (h : keysNodup reg)
    (a : String) (b c : ConversationSession) (hb : (a, b) ∈ reg) (hc : (a, c) ∈ reg) :
    b = c := by
  induction reg with
  | nil => cases hb
  | cons p rest ih =>
    have hhead : p.1 ∉ rest.map Prod.fst := by
      have := (List.nodup_cons.mp h).1
      simpa using this
    have htail : keysNodup rest := (List.nodup_cons.mp h).2
    rcases List.mem_cons.mp hb with hb1 | hb2 <;> rcases List.mem_cons.mp hc with hc1 | hc2
    · rw [← hb1] at hc1; exact congrArg Prod.snd hc1.symm
    · exfalso
      apply hhead
      have hpa : p.1 = a := by rw [← hb1]
      rw [hpa]
      exact List.mem_map_of_mem Prod.fst hc2
    · exfalso
      apply hhead
      have hpa : p.1 = a := by rw [← hc1]
      rw [hpa]
      exact List.mem_map_of_mem Prod.fst hb2
    · exact ih htail hb2 hc2

/-- Under unique keys, deleting a key from the registry is filtering it out. -/
theorem registry_del_eq_filter (reg : List (String × ConversationSession)) (sid : String)
    (h : keysNodup reg) :
    registry_del reg sid = reg.filter (fun p => !(p.1 == sid)) := by
  induction reg with
  | nil => rfl
  | cons p rest ih =>
    have hhead : p.1 ∉ rest.map Prod.fst := by
      have := (List.nodup_cons.mp h).1
      simpa using this
    have htail : keysNodup rest := (List.nodup_cons.mp h).2
    by_cases hp : p.1 = sid
    · have hrest : rest.filter (fun q => !(q.1 == sid)) = rest := by
        apply List.filter_eq_self.mpr
        intro q hq
        have : q.1 ≠ sid := by
          intro hq1
          apply hhead
          rw [hp, ← hq1]
          exact List.mem_map_of_mem Prod.fst hq
        simp [this]
      simp [registry_del, hp, hrest]
    · simp [registry_del, hp, ih htail]

/-- Under unique keys, `close_session` on a present or absent id leaves the
registry filtered of that id. -/
theorem close_session_fst (reg : List (String × ConversationSession)) (sid : String)
    (h : keysNodup reg) :
    (close_session reg sid).1 = reg.filter (fun p => !(p.1 == sid)) := by
  unfold close_session
  split
  · exact registry_del_eq_filter reg sid h
  · rename_i hany
    have hall : ∀ p ∈ reg, (p.1 == sid) = false := by
      intro p hp
      by_contra hne
      exact hany (List.any_eq_true.mpr ⟨p, hp, by simpa using hne⟩)
    symm
    apply List.filter_eq_self.mpr
    intro p hp
    simp [hall p hp]

/-- Filtering preserves key uniqueness. -/
theorem keysNodup_filter (reg : List (String × ConversationSession))
    (f : String × ConversationSession → Bool) (h : keysNodup reg) :
    keysNodup (reg.filter f) := by
  have hsub : ((reg.filter f).map Prod.fst).Sublist (reg.map Prod.fst) :=
    (List.filter_sublist reg).map Prod.fst
  exact List.Nodup.sublist hsub h

/-- Closing every id in a list, as the cleanup pass does, filters the
registry down to the pairs whose key is not in the list. -/
theorem fold_close_eq_filter (ids : List String)
    (reg : List (String × ConversationSession)) (h : keysNodup reg) :
    ids.foldl (fun r sid => (close_session r sid).1) reg =
      reg.filter (fun p => !(ids.contains p.1)) := by
  induction ids generalizing reg with
  | nil => simp
  | cons i ids ih =>
    rw [List.foldl_cons, close_session_fst reg i h,
      ih _ (keysNodup_filter reg _ h), List.filter_filter]
    apply List.filter_congr
    intro p _
    by_cases hpi : p.1 = i <;>
      simp [List.contains_cons, Bool.not_or, beq_iff_eq, hpi]

/-- Claim C7 (confirmed): one pass of the expiry loop removes exactly the
sessions whose inactivity exceeds the 3600s timeout — an expired session is
closed and afterwards absent from the registry and from the all-sessions
statistics, while a non-expired session survives the pass untouched. -/
theorem c7_expiry_pass (now : Int) (reg : List (String × ConversationSession))
    (sid : String) (s : ConversationSession) (h : keysNodup reg)
    (hmem : (sid, s) ∈ reg) :
    (s.is_expired now 3600 = true →
       sid ∉ (session_cleanup_pass now reg).map Prod.fst ∧
       sid ∉ (get_all_sessions_stats (session_cleanup_pass now reg)).active_sessions) ∧
    (s.is_expired now 3600 = false → (sid, s) ∈ session_cleanup_pass now reg) := by
  have hpass : session_cleanup_pass now reg =
      reg.filter (fun p =>
        !((((reg.filter (fun q => q.2.is_expired now 3600)).map Prod.fst)).contains p.1)) :=
    fold_close_eq_filter _ reg h
  constructor
  · intro hexp
    have hins : sid ∈ (reg.filter (fun q => q.2.is_expired now 3600)).map Prod.fst :=
      List.mem_map_of_mem Prod.fst (List.mem_filter.mpr ⟨hmem, by simpa using hexp⟩)
    have hnot : sid ∉ (session_cleanup_pass now reg).map Prod.fst := by
      rw [hpass]
      intro hmm
      rcases List.mem_map.mp hmm with ⟨p, hp, hp1⟩
      have hp2 := (List.mem_filter.mp hp).2
      rw [hp1] at hp2
      have hout : sid ∉ (reg.filter (fun q => q.2.is_expired now 3600)).map Prod.fst := by
        simpa using hp2
      exact hout hins
    refine ⟨hnot, ?_⟩
    intro hact
    apply hnot
    rcases List.mem_map.mp hact with ⟨p, hp, hp1⟩
    exact hp1 ▸ List.mem_map_of_mem Prod.fst (List.mem_filter.mp hp).1
  · intro hfresh
    rw [hpass]
    apply List.mem_filter.mpr
    refine ⟨hmem, ?_⟩
    have hout : sid ∉ (reg.filter (fun q => q.2.is_expired now 3600)).map Prod.fst := by
      intro hmm
      rcases List.mem_map.mp hmm with ⟨p, hp, hp1⟩
      have hp2 := List.mem_filter.mp hp
      have hmemp : (sid, p.2) ∈ reg := by
        have hps : p = (sid, p.2) := by
          rw [← hp1]
        rw [← hps]
        exact hp2.1
      have hps2 : p.2 = s := key_unique reg h sid p.2 s hmemp hmem
      have hexp2 : p.2.is_expired now 3600 = true := by simpa using hp2.2
      rw [hps2, hfresh] at hexp2
      exact absurd hexp2 (by decide)
    simpa using hout

/-- Witness for C7: at time 5000, session `s1` (idle 5000s) is gone from the
pass result and from the statistics, while `s2` (idle 1000s) survives. -/
theorem c7_expiry_witness :
    "s1" ∉ (session_cleanup_pass 5000 regW).map Prod.fst ∧
    "s1" ∉ (get_all_sessions_stats (session_cleanup_pass 5000 regW)).active_sessions ∧
    ("s2", sessW "s2" 4000) ∈ session_cleanup_pass 5000 regW := by
  have h1 := c7_expiry_pass 5000 regW "s1" (sessW "s1" 0) (by decide) (by decide)
  have h2 := c7_expiry_pass 5000 regW "s2" (sessW "s2" 4000) (by decide) (by decide)
  exact ⟨(h1.1 (by decide)).1, (h1.1 (by decide)).2, h2.2 (by decide)⟩

/-- Claim C8 (confirmed): `close_session` is idempotent — immediately
repeating a close finds the id absent, changes nothing, and performs no
second round of cleanup side effects (and raises no error: the absent-id
path is a no-op by construction). -/
theorem c8_close_session_idempotent (reg : List (String × ConversationSession))
    (sid : String) (h : keysNodup reg) :
    close_session (close_session reg sid).1 sid = ((close_session reg sid).1, false) := by
  rw [close_session_fst reg sid h]
  have hany : ((reg.filter (fun p => !(p.1 == sid))).any (fun p => p.1 == sid)) ≠ true := by
    intro hany
    rcases List.any_eq_true.mp hany with ⟨p, hp, hps⟩
    have h2 := (List.mem_filter.mp hp).2
    rw [hps] at h2
    exact absurd h2 (by decide)
  unfold close_session
  rw [if_neg hany]

/-- Witness for C8: closing `s1` twice in the concrete registry equals
closing it once, with the no-cleanup flag on the second call. -/
theorem c8_close_witness :
    close_session (close_session regW "s1").1 "s1" = ((close_session regW "s1").1, false) :=
  c8_close_session_idempotent regW "s1" (by decide)

/-- Claim C9 (confirmed): an `audio_chunk` frame with empty payload and a
`text_request` whose text strips to whitespace are each answered with an
`error` frame while the session — buffer, processing queue, response queue
and all — is returned exactly as it was. -/
theorem c9_empty_input_rejected (s : ConversationSession) (now : Int)
    (chunk_uuid : Nat) (is_final : Bool) (chunk_index : Int) (text : String)
    (language : Option String) (htext : (pyStrip text).isEmpty = true) :
    ((handle_audio_chunk s now chunk_uuid "" is_final chunk_index).1 = s ∧
     (handle_audio_chunk s now chunk_uuid "" is_final chunk_index).2.isErrorFrame = true) ∧
    ((handle_text_request s now text language).1 = s ∧
     (handle_text_request s now text language).2.isErrorFrame = true) := by
  have hempty : ("" : String).isEmpty = true := rfl
  refine ⟨⟨?_, ?_⟩, ?_, ?_⟩ <;>
    simp [handle_audio_chunk, handle_text_request, htext, hempty, Frame.isErrorFrame]

/-- Witness for C9: the concrete session is unchanged by an empty audio
chunk and by a tab-and-spaces text request, and both get error frames. -/
theorem c9_empty_input_witness :
    ((handle_audio_chunk (sessW "s1" 0) 1 9 "" false 0).1 = sessW "s1" 0 ∧
     (handle_audio_chunk (sessW "s1" 0) 1 9 "" false 0).2.isErrorFrame = true) ∧
    ((handle_text_request (sessW "s1" 0) 1 " \t " none).1 = sessW "s1" 0 ∧
     (handle_text_request (sessW "s1" 0) 1 " \t " none).2.isErrorFrame = true) :=
  c9_empty_input_rejected (sessW "s1" 0) 1 9 false 0 " \t " none (by decide)

/-- Dropping at most the first `l.length` elements of `l ++ [e]` keeps `e`. -/
theorem drop_append_keeps_last {α : Type} (l : List α) (e : α) (n : Nat)
    (h : n ≤ l.length) : (l ++ [e]).drop n = l.drop n ++ [e] := by
  induction l generalizing n with
  | nil =>
    have : n = 0 := Nat.le_zero.mp h
    subst this; rfl
  | cons a l ih =>
    cases n with
    | zero => rfl
    | succ m =>
      simp only [List.cons_append, List.drop_succ_cons]
      exact ih m (Nat.le_of_succ_le_succ h)

/-- The entry just appended by `add_conversation_entry` is in the stored
history, whether or not the 50-entry cap truncated the front. -/
theorem mem_add_conversation_entry (s : ConversationSession) (e : HistoryEntry) :
    e ∈ (s.add_conversation_entry e).conversation_history := by
  unfold ConversationSession.add_conversation_entry
  simp only
  split
  · rw [drop_append_keeps_last _ _ _ (by simp)]
    simp
  · simp

/-- Claim C10 (confirmed): for every popped speech request the `_tts_worker`
appends a `tts_response` history entry — also when synthesis fails (TTS
engine missing, executor failure, engine exception) or yields empty audio —
and in every such no-audio case the recorded `audio_size` is 0 and no
`audio_response` frame is sent. -/
theorem c10_tts_history_always_recorded (s : ConversationSession) (now : Int)
    (req : SpeechRequest) (tts_ok exec_ok : Bool) (engine : Except String (List Nat)) :
    (HistoryEntry.tts_response req.text req.language
        (tts_recorded_size tts_ok exec_ok engine) now) ∈
      (tts_worker_handle s now req tts_ok exec_ok engine).1.conversation_history ∧
    (tts_ok = false ∨ exec_ok = false ∨ engine.toOption = none ∨ engine = .ok [] →
      tts_recorded_size tts_ok exec_ok engine = 0 ∧
      (tts_worker_handle s now req tts_ok exec_ok engine).2 = false) := by
  constructor
  · exact mem_add_conversation_entry _ _
  · intro hfail
    rcases hfail with hf | hf | hf | hf
    · simp [tts_worker_handle, tts_recorded_size, generate_speech_chunk, pyTruthyBytes, hf]
    · cases tts_ok <;>
        simp [tts_worker_handle, tts_recorded_size, generate_speech_chunk, pyTruthyBytes, hf]
    · cases engine with
      | ok b => simp [Except.toOption] at hf
      | error msg =>
        cases tts_ok <;> cases exec_ok <;>
          simp [tts_worker_handle, tts_recorded_size, generate_speech_chunk,
            generate_speech_blocking, pyTruthyBytes]
    · subst hf
      cases tts_ok <;> cases exec_ok <;>
        simp [tts_worker_handle, tts_recorded_size, generate_speech_chunk,
          generate_speech_blocking, pyTruthyBytes]

/-- Witness for C10: with the TTS engine unavailable, the concrete session
still records a `tts_response` entry with `audio_size = 0` and no
`audio_response` frame goes out. -/
theorem c10_tts_history_witness :
    (HistoryEntry.tts_response "hi" "en" (tts_recorded_size false true (.ok [1])) 2) ∈
      (tts_worker_handle (sessW "s1" 0) 2 ⟨"hi", "en", 1⟩ false true
        (.ok [1])).1.conversation_history ∧
    tts_recorded_size false true (.ok [1]) = 0 ∧
    (tts_worker_handle (sessW "s1" 0) 2 ⟨"hi", "en", 1⟩ false true (.ok [1])).2 = false := by
  have h := c10_tts_history_always_recorded (sessW "s1" 0) 2 ⟨"hi", "en", 1⟩ false true (.ok [1])
  exact ⟨h.1, (h.2 (Or.inl rfl)).1, (h.2 (Or.inl rfl)).2⟩

end LLB
